import Mathlib

/-!
Verification of the morp message-queue library against its specification.

The development shallowly embeds the code of `morp/interface/base.py`,
`morp/interface/postgres.py`, `morp/interface/dropfile.py`, `morp/config.py`,
`morp/message.py` and `morp/exception.py`.  Python dictionaries whose keys are
strings are modelled by the assoc-list type `PyMap`, Python values by `PyVal`,
and the opaque byte strings produced by the external serialization and
encryption libraries (pickle, json, cryptography.fernet) by the free type
`Body`, whose constructors record exactly the information those libraries
guarantee to be recoverable.  Sources are cited next to each definition.
-/

deriving instance DecidableEq for Except

namespace Morp

mutual

/-- Model of a Python value as it can occur in a morp message `fields` dict.
`pobj` models an opaque backend object (a file handle, a boto message, a row
dict) that morp itself only stores and passes around. -/
inductive PyVal where
  | pnone
  | pbool (b : Bool)
  | pint (n : Int)
  | pstr (s : String)
  | pbytes (s : String)
  | pobj (tag : String)
  | plist (xs : PyArr)
  | ptuple (xs : PyArr)
  | pdict (kvs : PyMap)
  deriving DecidableEq, Repr

/-- A Python list/tuple of values (spelled out so that structural recursion
and decidable equality work over the mutual family). -/
inductive PyArr where
  | nil
  | cons (hd : PyVal) (tl : PyArr)
  deriving DecidableEq, Repr

/-- A Python dict with string keys, in insertion order. -/
inductive PyMap where
  | nil
  | cons (k : String) (v : PyVal) (tl : PyMap)
  deriving DecidableEq, Repr

end

/-- Whether the dict has the given key (`k in d`). -/
def PyMap.containsKey : PyMap → String → Bool
  | .nil, _ => false
  | .cons k _ tl, key => if k = key then true else tl.containsKey key

/-- Dict lookup, `d[k]` as an `Option` (Python raises KeyError on a miss). -/
def PyMap.get : PyMap → String → Option PyVal
  | .nil, _ => none
  | .cons k v tl, key => if k = key then some v else tl.get key

/-- Dict assignment `d[k] = v`: replaces in place when the key exists,
appends otherwise (Python dicts preserve insertion order). -/
def PyMap.set : PyMap → String → PyVal → PyMap
  | .nil, key, v => .cons key v .nil
  | .cons k w tl, key, v =>
      if k = key then .cons k v tl else .cons k w (tl.set key v)

/-- Python's `d.setdefault(k, v)`. -/
def PyMap.setdefault (d : PyMap) (key : String) (v : PyVal) : PyMap :=
  if d.containsKey key then d else d.set key v

/-- Python's `d[k] += 1` on an int entry; `none` models the TypeError /
KeyError paths. -/
def PyMap.incr (d : PyMap) (key : String) : Option PyMap :=
  match d.get key with
  | some (.pint n) => some (d.set key (.pint (n + 1)))
  | _ => none

/-- Model of the Python exceptions that appear in morp's control flow
(`morp/exception.py`, psycopg's UndefinedTable, botocore's ClientError and
the builtins).  `wrapped e` models `InterfaceError(e)` raised `from e`
(base.py 440); `backendError` models any other backend exception by its
class name. -/
inductive PyExn where
  | valueError (msg : String)
  | typeError (msg : String)
  | keyError (key : String)
  | unpicklingError
  | invalidToken
  | undefinedTable
  | interfaceError (msg : String)
  | releaseMessage (delay_seconds : Int)
  | ackMessage
  | backendError (className msg : String)
  | wrapped (cause : PyExn)
  deriving DecidableEq, Repr

/-- The Python class name of the exception, `e.__class__.__name__`. -/
def PyExn.className : PyExn → String
  | .valueError _ => "ValueError"
  | .typeError _ => "TypeError"
  | .keyError _ => "KeyError"
  | .unpicklingError => "UnpicklingError"
  | .invalidToken => "InvalidToken"
  | .undefinedTable => "UndefinedTable"
  | .interfaceError _ => "InterfaceError"
  | .releaseMessage _ => "ReleaseMessage"
  | .ackMessage => "AckMessage"
  | .backendError n _ => n
  | .wrapped _ => "InterfaceError"

/-- Truth of `isinstance(e, InterfaceError)`: per `morp/exception.py`,
`ReleaseMessage` and `AckMessage` are subclasses of `InterfaceError`. -/
def PyExn.isInterfaceError : PyExn → Bool
  | .interfaceError _ => true
  | .releaseMessage _ => true
  | .ackMessage => true
  | .wrapped _ => true
  | _ => false

/-- Exception class names for which `hasattr(builtins, e.__class__.__name__)`
is true: the Python builtin exceptions (a representative finite fragment;
the backend library exception names modelled here, such as UndefinedTable,
InvalidToken, UnpicklingError or ClientError, are not builtins). -/
def builtins_exception_names : List String :=
  ["BaseException", "Exception", "ValueError", "TypeError", "KeyError",
   "IndexError", "AttributeError", "RuntimeError", "OSError",
   "NotImplementedError", "StopIteration", "StopAsyncIteration"]

/-- `Interface._raise_error` (base.py 430-440): an exception that is already
an `InterfaceError`, or whose class name is a Python builtin, is re-raised
unchanged; anything else is raised as `InterfaceError(e) from e`. -/
def raise_error (e : PyExn) : PyExn :=
  if e.isInterfaceError || builtins_exception_names.contains e.className then e
  else .wrapped e

/-- `Interface.connection` (base.py 155-171): the context manager wraps the
body's exceptions through `_raise_error` and re-raises; successful results
pass through. -/
def connection_run {α : Type} : Except PyExn α → Except PyExn α
  | .ok a => .ok a
  | .error e => .error (raise_error e)

/-- Model of the opaque byte strings that flow between morp and the external
serialization/encryption libraries.  Each constructor is the image of the
corresponding library encoder; morp never inspects these bytes, it only
passes them to the matching decoder, so the model records exactly what each
decoder can recover. -/
inductive Body where
  | pickled (v : PyVal)
  | jsonText (v : PyVal)
  | fernetTok (key : String) (inner : Body)
  deriving DecidableEq, Repr

mutual

/-- Whether `json.dumps` accepts the value (bytes and arbitrary objects are
not JSON serializable and raise TypeError). -/
def jsonable : PyVal → Bool
  | .pnone => true
  | .pbool _ => true
  | .pint _ => true
  | .pstr _ => true
  | .pbytes _ => false
  | .pobj _ => false
  | .plist xs => jsonableArr xs
  | .ptuple xs => jsonableArr xs
  | .pdict kvs => jsonableMap kvs

def jsonableArr : PyArr → Bool
  | .nil => true
  | .cons hd tl => jsonable hd && jsonableArr tl

def jsonableMap : PyMap → Bool
  | .nil => true
  | .cons _ v tl => jsonable v && jsonableMap tl

end

mutual

/-- The value recovered by `json.loads (json.dumps v)`: JSON has no tuple
type, so Python tuples come back as lists; everything else in the modelled
value domain is stable. -/
def jsonNorm : PyVal → PyVal
  | .pnone => .pnone
  | .pbool b => .pbool b
  | .pint n => .pint n
  | .pstr s => .pstr s
  | .pbytes s => .pbytes s
  | .pobj t => .pobj t
  | .plist xs => .plist (jsonNormArr xs)
  | .ptuple xs => .plist (jsonNormArr xs)
  | .pdict kvs => .pdict (jsonNormMap kvs)

def jsonNormArr : PyArr → PyArr
  | .nil => .nil
  | .cons hd tl => .cons (jsonNorm hd) (jsonNormArr tl)

def jsonNormMap : PyMap → PyMap
  | .nil => .nil
  | .cons k v tl => .cons k (jsonNorm v) (jsonNormMap tl)

end

/-- `pickle.dumps(fields, pickle.HIGHEST_PROTOCOL)` (base.py 183). -/
def pickle_dumps (v : PyVal) : Body := .pickled v

/-- `pickle.loads` (base.py 281): inverts `pickle.dumps`; any other byte
string fails to unpickle. -/
def pickle_loads : Body → Except PyExn PyVal
  | .pickled v => .ok v
  | _ => .error .unpicklingError

/-- `ByteString(json.dumps(fields))` (base.py 186); TypeError on values that
are not JSON serializable. -/
def json_dumps (v : PyVal) : Except PyExn Body :=
  if jsonable v then .ok (.jsonText v)
  else .error (.typeError "Object is not JSON serializable")

/-- `json.loads` (base.py 284): decodes the JSON text produced by
`json.dumps`, yielding the JSON normalization of the original value; any
other byte string is not valid JSON. -/
def json_loads : Body → Except PyExn PyVal
  | .jsonText v => .ok (jsonNorm v)
  | _ => .error (.valueError "Invalid JSON")

/-- `Fernet(key).encrypt(ret)` (base.py 197-198). -/
def fernet_encrypt (key : String) (b : Body) : Body := .fernetTok key b

/-- `Fernet(key).decrypt(body)` (base.py 273-274): recovers the plaintext of
a token minted with the same key, and raises InvalidToken otherwise. -/
def fernet_decrypt (key : String) : Body → Except PyExn Body
  | .fernetTok k inner => if k = key then .ok inner else .error .invalidToken
  | _ => .error .invalidToken

/-- The option values a caller can put on a `Connection` that the claims
touch.  A `none` field models the option being absent from the options
dict. -/
structure UserOptions where
  serializer : Option String := none
  key : String := ""
  max_timeout : Option Int := none
  backoff_multiplier : Option Int := none
  backoff_amplifier : Option Int := none
  deriving DecidableEq, Repr

/-- The effective connection configuration, after `Connection.__init__`
(config.py 81-91) has run its setdefaults and the `serializer`/`key`
properties (config.py 50-65) are resolved.  The Fernet key derivation
(sha256 then base64, config.py 63-64) is an injective map of the `key`
option, modelled by the option string itself; an empty string models the
absent key. -/
structure Connection where
  serializer : String
  key : String
  max_timeout : Int
  backoff_multiplier : Int
  backoff_amplifier : Option Int
  deriving DecidableEq, Repr

/-- `Connection.__init__` (config.py 81-91): `max_timeout` defaults to 3600
and `backoff_multiplier` to 5 via `setdefault`; `backoff_amplifier` gets no
default; the `serializer` property (config.py 50-54) defaults to
"pickle". -/
def Connection.ofOptions (o : UserOptions) : Connection :=
  { serializer := o.serializer.getD "pickle"
    key := o.key
    max_timeout := o.max_timeout.getD 3600
    backoff_multiplier := o.backoff_multiplier.getD 5
    backoff_amplifier := o.backoff_amplifier }

/-- `Interface._fields_to_body` (base.py 173-200): serialize the fields with
the configured serializer (the `serializer` property raises ValueError on an
unknown name, config.py 52-53), then encrypt when a key is configured. -/
def fields_to_body (c : Connection) (fields : PyVal) : Except PyExn Body :=
  match
    (if c.serializer = "pickle" then .ok (pickle_dumps fields)
     else if c.serializer = "json" then json_dumps fields
     else .error (.valueError ("Unknown serializer " ++ c.serializer))
      : Except PyExn Body) with
  | .error e => .error e
  | .ok ret =>
      if c.key ≠ "" then .ok (fernet_encrypt c.key ret) else .ok ret

/-- `Interface._body_to_fields` (base.py 253-286): decrypt when a key is
configured, then deserialize with the configured serializer. -/
def body_to_fields (c : Connection) (body : Body) : Except PyExn PyVal :=
  match
    (if c.key ≠ "" then fernet_decrypt c.key body else .ok body
      : Except PyExn Body) with
  | .error e => .error e
  | .ok ret =>
      if c.serializer = "pickle" then pickle_loads ret
      else if c.serializer = "json" then json_loads ret
      else .error (.valueError ("Unknown serializer " ++ c.serializer))

/-- Composition decode-after-encode for one configuration. -/
def codec_roundtrip (c : Connection) (fields : PyVal) : Except PyExn PyVal :=
  (fields_to_body c fields).bind (body_to_fields c)

/-- `Interface.release` (base.py 363-407): the delay handed to the backend
`_release`.  The caller's `delay_seconds` (default 0) is clamped to ≥ 0;
when it is 0 and the message's `_count` is truthy the backoff formula
`min(max_timeout, (count * backoff_multiplier) * backoff_amplifier)` is
used, with `backoff_amplifier` defaulting to `count` (base.py 375-393). -/
def releaseDelay (c : Connection) (delay_arg : Int) (count : Int) : Int :=
  let delay_seconds := max delay_arg 0
  if delay_seconds = 0 then
    if count ≠ 0 then
      min c.max_timeout ((count * c.backoff_multiplier) * (c.backoff_amplifier.getD count))
    else
      delay_seconds
  else
    delay_seconds

theorem releaseDelay_zero_pos (uo : UserOptions) (cnt : Int) (hc : 0 < cnt) :
    releaseDelay (Connection.ofOptions uo) 0 cnt
      = min (uo.max_timeout.getD 3600)
          ((cnt * uo.backoff_multiplier.getD 5) * (uo.backoff_amplifier.getD cnt)) := by
  simp only [releaseDelay, Connection.ofOptions]
  have hmax : max (0 : Int) 0 = 0 := by omega
  rw [hmax]
  simp only [if_pos rfl]
  rw [if_pos (by omega : cnt ≠ 0)]
  simp

/-- C1: with `delay_seconds` 0 (or omitted, which defaults to 0) and
`_count = c > 0`, the delay passed to the backend release is
`min(max_timeout, c * backoff_multiplier * backoff_amplifier)` where
`max_timeout` defaults to 3600, `backoff_multiplier` to 5 and
`backoff_amplifier` to `c`; with `c = 0` or an explicit nonnegative delay
the supplied delay passes through unchanged. -/
theorem release_backoff_formula (uo : UserOptions) (d c : Int) :
    (0 < c → releaseDelay (Connection.ofOptions uo) 0 c
      = min (uo.max_timeout.getD 3600)
          ((c * uo.backoff_multiplier.getD 5) * (uo.backoff_amplifier.getD c)))
  ∧ releaseDelay (Connection.ofOptions uo) 0 0 = 0
  ∧ (0 < d → releaseDelay (Connection.ofOptions uo) d c = d)
  ∧ (0 ≤ d → releaseDelay (Connection.ofOptions uo) d 0 = d) := by
  refine ⟨?_, ?_, ?_, ?_⟩
  · exact releaseDelay_zero_pos uo c
  · simp [releaseDelay]
  · intro hd
    simp only [releaseDelay]
    have hmax : max d 0 = d := by omega
    rw [hmax, if_neg (by omega : ¬ d = 0)]
  · intro hd
    rcases lt_or_eq_of_le hd with h | h
    · simp only [releaseDelay]
      have hmax : max d 0 = d := by omega
      rw [hmax, if_neg (by omega : ¬ d = 0)]
    · subst h
      simp [releaseDelay]

/-- Witness for C1 at concrete inputs: count 3 with all options absent gives
min 3600 (3 * 5 * 3) and an explicit delay of 7 passes through. -/
theorem release_backoff_formula_witness :
    releaseDelay (Connection.ofOptions {}) 0 3
      = min ((3600 : Int)) ((3 * 5) * 3)
  ∧ releaseDelay (Connection.ofOptions {}) 7 3 = 7 :=
  ⟨(release_backoff_formula {} 7 3).1 (by decide),
   (release_backoff_formula {} 7 3).2.2.1 (by decide)⟩

theorem codec_roundtrip_pickle (c : Connection) (h : c.serializer = "pickle")
    (m : PyVal) : codec_roundtrip c m = .ok m := by
  by_cases hk : c.key = "" <;>
    simp [codec_roundtrip, fields_to_body, body_to_fields, h, hk,
      pickle_dumps, pickle_loads, fernet_encrypt, fernet_decrypt, Except.bind]

theorem codec_roundtrip_json (c : Connection) (h : c.serializer = "json")
    (m : PyVal) (hm : jsonable m = true) :
    codec_roundtrip c m = .ok (jsonNorm m) := by
  by_cases hk : c.key = "" <;>
    simp [codec_roundtrip, fields_to_body, body_to_fields, h, hk,
      json_dumps, json_loads, hm, fernet_encrypt, fernet_decrypt, Except.bind]

/-- C3 counterexample: with the json serializer (and no key) a fields
mapping holding a tuple does not decode back to itself — JSON has no tuple
type, so the tuple comes back as a list. -/
theorem json_roundtrip_not_identity :
    codec_roundtrip (Connection.ofOptions { serializer := some "json" })
        (.pdict (.cons "a" (.ptuple (.cons (.pint 1) .nil)) .nil))
      ≠ .ok (.pdict (.cons "a" (.ptuple (.cons (.pint 1) .nil)) .nil)) := by
  have h1 : codec_roundtrip (Connection.ofOptions { serializer := some "json" })
      (.pdict (.cons "a" (.ptuple (.cons (.pint 1) .nil)) .nil))
      = .ok (.pdict (.cons "a" (.plist (.cons (.pint 1) .nil)) .nil)) := rfl
  rw [h1]
  intro h
  simp at h

/-- C3 (amended): decoding the encoded body returns the original fields for
the pickle serializer on every fields value and every key configuration; for
the json serializer (on JSON-serializable fields) it returns the JSON
normalization of the fields — tuples come back as lists — and hence the
original fields exactly when they are JSON-stable.  Both functions are
deterministic in (fields, serializer, key). -/
theorem codec_roundtrip_spec (uo : UserOptions) (m : PyVal) :
    (uo.serializer = none ∨ uo.serializer = some "pickle" →
        codec_roundtrip (Connection.ofOptions uo) m = .ok m)
  ∧ (uo.serializer = some "json" → jsonable m = true →
        codec_roundtrip (Connection.ofOptions uo) m = .ok (jsonNorm m))
  ∧ (uo.serializer = some "json" → jsonable m = true → jsonNorm m = m →
        codec_roundtrip (Connection.ofOptions uo) m = .ok m) := by
  refine ⟨?_, ?_, ?_⟩
  · rintro (h | h) <;>
      exact codec_roundtrip_pickle _ (by simp [Connection.ofOptions, h]) m
  · intro h hm
    exact codec_roundtrip_json _ (by simp [Connection.ofOptions, h]) m hm
  · intro h hm hstable
    rw [codec_roundtrip_json _ (by simp [Connection.ofOptions, h]) m hm, hstable]

/-- Witness for C3 (amended): a concrete fields dict roundtrips under
pickle with a key configured, and under json without one. -/
theorem codec_roundtrip_spec_witness :
    codec_roundtrip (Connection.ofOptions { key := "secret" })
        (.pdict (.cons "foo" (.pint 1) .nil))
      = .ok (.pdict (.cons "foo" (.pint 1) .nil))
  ∧ codec_roundtrip (Connection.ofOptions { serializer := some "json" })
        (.pdict (.cons "foo" (.pint 1) .nil))
      = .ok (.pdict (.cons "foo" (.pint 1) .nil)) :=
  ⟨(codec_roundtrip_spec { key := "secret" } (.pdict (.cons "foo" (.pint 1) .nil))).1
      (Or.inl rfl),
   (codec_roundtrip_spec { serializer := some "json" }
      (.pdict (.cons "foo" (.pint 1) .nil))).2.2 rfl (by decide) (by decide)⟩

/-- C9 counterexample: a ValueError raised inside a backend operation (for
example `SQS._recv` raises ValueError on an out-of-range timeout) is not
wrapped: `_raise_error` re-raises any exception whose class name is a
Python builtin unchanged, so the caller sees a bare ValueError. -/
theorem raise_error_builtin_unwrapped :
    raise_error (.valueError "timeout must be between 1 and 20")
      = .valueError "timeout must be between 1 and 20"
  ∧ (PyExn.valueError "timeout must be between 1 and 20").isInterfaceError = false
  ∧ (raise_error (.valueError "timeout must be between 1 and 20")).className
      ≠ "InterfaceError" := by
  decide

/-- C9 (amended): a backend exception that is not an InterfaceError and
whose class name is not a Python builtin is wrapped as an InterfaceError
chained to the original and surfaced; an InterfaceError, or an exception
with a builtin class name, is re-raised unchanged; in both cases the
connection context never swallows an error into a success. -/
theorem raise_error_spec (α : Type) (e : PyExn) :
    (e.isInterfaceError = false →
     builtins_exception_names.contains e.className = false →
       raise_error e = .wrapped e
       ∧ (raise_error e).isInterfaceError = true
       ∧ (raise_error e).className = "InterfaceError")
  ∧ (e.isInterfaceError = true ∨ builtins_exception_names.contains e.className = true →
       raise_error e = e)
  ∧ connection_run (Except.error e : Except PyExn α) = .error (raise_error e)
  ∧ (∀ r : Except PyExn α, (∃ b, connection_run r = .ok b) ↔ ∃ b, r = .ok b) := by
  refine ⟨?_, ?_, rfl, ?_⟩
  · intro h1 h2
    unfold raise_error
    rw [h1, h2]
    exact ⟨rfl, rfl, rfl⟩
  · rintro (h | h) <;>
      · unfold raise_error
        rw [h]
        simp
  · intro r
    cases r <;> simp [connection_run]

/-- Witness for C9 (amended): a psycopg OperationalError (not a builtin,
not an InterfaceError) gets wrapped, and a successful operation passes
through the connection context untouched. -/
theorem raise_error_spec_witness :
    raise_error (.backendError "OperationalError" "could not connect")
      = .wrapped (.backendError "OperationalError" "could not connect")
  ∧ (∃ b, connection_run (Except.ok (0 : Nat) : Except PyExn Nat) = .ok b) :=
  ⟨((raise_error_spec Nat (.backendError "OperationalError" "could not connect")).1
      (by decide) (by decide)).1,
   ((raise_error_spec Nat (.backendError "OperationalError" "could not connect")).2.2.2
      (Except.ok 0)).mpr ⟨0, rfl⟩⟩

/-- The value returned from `.send()`: `Interface._send_to_fields`
(base.py 202-215) adds the `_id` and `_raw_send` keys to the fields. -/
def send_to_fields (_id : String) (fields : PyMap) (raw : PyVal) : PyMap :=
  (fields.set "_id" (.pstr _id)).set "_raw_send" raw

/-- `Interface.send` (base.py 217-241), parametric in the backend `_send`
(the backend maps its state and a body to a new state, the message id and a
raw receipt): empty fields raise ValueError before the connection context is
entered and before anything reaches the backend; otherwise the encoded body
is handed to the backend inside the connection context, whose errors go
through `_raise_error`. -/
def interface_send {σ : Type} (c : Connection)
    (backend_send : σ → Body → σ × String × PyVal)
    (st : σ) (fields : PyMap) : σ × Except PyExn PyMap :=
  if fields = PyMap.nil then
    (st, .error (.valueError "No fields to send"))
  else
    match connection_run (fields_to_body c (.pdict fields)) with
    | .error e => (st, .error e)
    | .ok body =>
        let r := backend_send st body
        (r.1, .ok (send_to_fields r.2.1 fields r.2.2))

/-- C10: sending an empty fields mapping raises ValueError and leaves every
backend untouched — the theorem holds for an arbitrary backend state and an
arbitrary backend send function, which is never applied. -/
theorem send_empty_fields_value_error {σ : Type} (c : Connection)
    (backend_send : σ → Body → σ × String × PyVal) (st : σ) :
    interface_send c backend_send st PyMap.nil
      = (st, .error (.valueError "No fields to send")) := by
  simp [interface_send]

/-- `Interface._recv_to_fields` (base.py 288-304): decode the body, then set
`_id` and `_raw_recv` on the fields, `setdefault` the `_count` key to 0 and
increment it. -/
def recv_to_fields_base (c : Connection) (_id : String) (body : Body)
    (raw : PyVal) : Except PyExn PyMap :=
  match body_to_fields c body with
  | .error e => .error e
  | .ok (.pdict kvs) =>
      let f1 := (kvs.set "_id" (.pstr _id)).set "_raw_recv" raw
      let f2 := f1.setdefault "_count" (.pint 0)
      (match f2.incr "_count" with
       | some f3 => .ok f3
       | none => .error (.typeError "unsupported operand for +="))
  | .ok _ => .error (.typeError "fields must be a dict")

/-- The attribute names defined on `class Interface` in base.py (including
those inherited from `InterfaceABC`), in source order.  Python resolves
`self.<name>` and `super().<name>` against these: note the hook called by
`Interface.recv` (base.py 330) is named `_recv_to_fields` and no attribute
is named `recv_to_fields`. -/
def interface_class_attrs : List String :=
  ["connected", "connection_config", "connect", "close", "connection",
   "_fields_to_body", "_send_to_fields", "send", "count", "_body_to_fields",
   "_recv_to_fields", "recv", "ack", "release", "unsafe_clear",
   "unsafe_delete", "_raise_error",
   "_connect", "_get_connection", "_close", "_send", "_count", "_recv",
   "_ack", "_release", "_clear", "_delete"]

/-- The attribute names defined on `class Postgres` in postgres.py, in
source order: its receive-fields override is named `recv_to_fields`
(postgres.py 239), not `_recv_to_fields`. -/
def postgres_class_attrs : List String :=
  ["_pool", "Status", "cursor", "connection", "_connect", "_close",
   "_render_sql", "_render_pubsub_name", "_render_index_name",
   "_create_table", "_send", "_count", "recv_to_fields", "_get_raw",
   "_recv", "_ack", "_release", "_clear", "_delete"]

/-- The attribute names defined on `class Dropfile` in dropfile.py, in
source order. -/
def dropfile_class_attrs : List String :=
  ["_connection", "queue", "_connect", "get_connection", "_close", "_send",
   "_count", "recv_to_fields", "_recv", "_ack", "_release", "_clear",
   "_delete", "_cleanup"]

/-- The first step of `Dropfile._ack` (dropfile.py 101-103) and of
`SQS._ack` (sqs.py 270-277): both read `fields["_raw"]` to obtain the
backend-private delivery handle, which raises KeyError when the key is
absent from the fields. -/
def ack_raw_handle (fields : PyMap) : Except PyExn PyVal :=
  match fields.get "_raw" with
  | some v => .ok v
  | none => .error (.keyError "_raw")

/-- A connection configured with no options at all: pickle serializer, no
key, default timeouts. -/
def demo_conn : Connection := Connection.ofOptions {}

/-- A one-entry user fields dict. -/
def demo_fields : PyMap := .cons "foo" (.pint 1) .nil

/-- The fields produced by `Interface.recv` for a freshly delivered pickle
message with id "id0" whose backend handle is `pobj "handle"`. -/
def demo_recv_fields : Option PyMap :=
  (recv_to_fields_base demo_conn "id0" (.pickled (.pdict demo_fields))
    (.pobj "handle")).toOption

/-- C4 (bug): the fields returned by recv carry the backend delivery handle
under the key `_raw_recv` (base.py 301) and have no `_raw` key, while
`Dropfile._ack` (dropfile.py 102) and `SQS._ack` (sqs.py 275) read
`fields["_raw"]`; so ack on fields freshly returned by recv raises
KeyError("_raw") instead of completing the INFLIGHT to CONSUMED
transition. -/
theorem recv_fields_lack_raw_key :
    demo_recv_fields.map
        (fun f => (f.get "_raw", f.get "_raw_recv", ack_raw_handle f))
      = some (none, some (.pobj "handle"), .error (.keyError "_raw")) := by
  decide

/-- A row of a per-queue table on the Postgres engine (postgres.py 155-183):
`_id UUID, body BYTEA, status TEXT, count INTEGER DEFAULT 1,
valid TIMESTAMPTZ, _created TIMESTAMPTZ, _updated TIMESTAMPTZ`.  Timestamps
are modelled as integers, uuids as strings. -/
structure PgRow where
  _id : String
  body : Body
  status : String
  count : Int
  valid : Int
  _created : Int
  _updated : Int
  deriving DecidableEq, Repr

/-- `Postgres.Status.NEW.value` (postgres.py 31). -/
def statusNew : String := "new"

/-- `Postgres.Status.PROCESSING.value` (postgres.py 34). -/
def statusProcessing : String := "processing"

/-- `Postgres.Status.RELEASED.value` (postgres.py 39). -/
def statusReleased : String := "released"

/-- The WHERE clause of the inner select of the claim query
(postgres.py 265-266): `valid <= now AND status != PROCESSING`. -/
def pg_eligible (now : Int) (r : PgRow) : Bool :=
  decide (r.valid ≤ now) && !(r.status == statusProcessing)

/-- Accumulator realizing `ORDER BY _created ASC ... LIMIT 1`: keep the row
with the earliest `_created` seen so far (the first one wins on ties). -/
def pg_pick_older (acc : Option PgRow) (r : PgRow) : Option PgRow :=
  match acc with
  | none => some r
  | some b => if r._created < b._created then some r else some b

/-- The inner select of the claim query (postgres.py 262-270): among the
rows that satisfy the WHERE clause and are not row-locked by a concurrent
transaction (`FOR UPDATE SKIP LOCKED`), the first in `_created` ascending
order.  `locked` holds the ids of the rows currently locked elsewhere. -/
def pg_claim_select (now : Int) (locked : List String) (rows : List PgRow) :
    Option PgRow :=
  (rows.filter (fun r => pg_eligible now r && !(locked.contains r._id))).foldl
    pg_pick_older none

/-- The `SET status = PROCESSING` effect of the claim UPDATE on the row
with the selected id (postgres.py 260-262). -/
def pg_set_processing (msgId : String) (rows : List PgRow) : List PgRow :=
  rows.map (fun r =>
    if r._id = msgId then { r with status := statusProcessing } else r)

/-- `Postgres._get_raw` (postgres.py 244-300): one UPDATE statement whose
inner select picks the row to claim; the claimed row is returned with its
new status, no row is returned when nothing qualifies, and a missing table
(`UndefinedTable`, modelled by a `none` table state, postgres.py 297-298)
yields no row. -/
def pg_get_raw (now : Int) (locked : List String) :
    Option (List PgRow) → Option PgRow × Option (List PgRow)
  | none => (none, none)
  | some rows =>
      match pg_claim_select now locked rows with
      | none => (none, some rows)
      | some r =>
          (some { r with status := statusProcessing },
           some (pg_set_processing r._id rows))

theorem pg_fold_some_acc (l : List PgRow) :
    ∀ b r : PgRow, l.foldl pg_pick_older (some b) = some r →
      (r = b ∨ r ∈ l) ∧ r._created ≤ b._created
        ∧ ∀ x ∈ l, r._created ≤ x._created := by
  induction l with
  | nil =>
      intro b r h
      simp only [List.foldl_nil, Option.some.injEq] at h
      subst h
      exact ⟨Or.inl rfl, le_refl _, by simp⟩
  | cons hd tl ih =>
      intro b r h
      rw [List.foldl_cons] at h
      have hstep : pg_pick_older (some b) hd
          = if hd._created < b._created then some hd else some b := rfl
      rw [hstep] at h
      by_cases hlt : hd._created < b._created
      · rw [if_pos hlt] at h
        obtain ⟨hmem, hle, hall⟩ := ih hd r h
        refine ⟨?_, le_trans hle (le_of_lt hlt), ?_⟩
        · rcases hmem with h1 | h1
          · exact Or.inr (by simp [h1])
          · exact Or.inr (List.mem_cons_of_mem _ h1)
        · intro x hx
          rcases List.mem_cons.mp hx with h1 | h1
          · subst h1; exact hle
          · exact hall x h1
      · rw [if_neg hlt] at h
        obtain ⟨hmem, hle, hall⟩ := ih b r h
        push_neg at hlt
        refine ⟨?_, hle, ?_⟩
        · rcases hmem with h1 | h1
          · exact Or.inl h1
          · exact Or.inr (List.mem_cons_of_mem _ h1)
        · intro x hx
          rcases List.mem_cons.mp hx with h1 | h1
          · subst h1; exact le_trans hle hlt
          · exact hall x h1

theorem pg_fold_some_ne_none (l : List PgRow) :
    ∀ b : PgRow, l.foldl pg_pick_older (some b) ≠ none := by
  induction l with
  | nil => intro b; simp
  | cons hd tl ih =>
      intro b
      rw [List.foldl_cons]
      have hstep : pg_pick_older (some b) hd
          = if hd._created < b._created then some hd else some b := rfl
      rw [hstep]
      by_cases hlt : hd._created < b._created
      · rw [if_pos hlt]; exact ih hd
      · rw [if_neg hlt]; exact ih b

theorem pg_fold_none_iff (l : List PgRow) :
    l.foldl pg_pick_older none = none ↔ l = [] := by
  cases l with
  | nil => simp
  | cons hd tl =>
      simp only [List.foldl_cons]
      have hstep : pg_pick_older none hd = some hd := rfl
      rw [hstep]
      constructor
      · intro h; exact absurd h (pg_fold_some_ne_none tl hd)
      · intro h; simp at h

theorem pg_fold_min (l : List PgRow) (r : PgRow) :
    l.foldl pg_pick_older none = some r →
      r ∈ l ∧ ∀ x ∈ l, r._created ≤ x._created := by
  cases l with
  | nil => intro h; simp at h
  | cons hd tl =>
      intro h
      rw [List.foldl_cons] at h
      have hstep : pg_pick_older none hd = some hd := rfl
      rw [hstep] at h
      obtain ⟨hmem, hle, hall⟩ := pg_fold_some_acc tl hd r h
      constructor
      · rcases hmem with h1 | h1
        · simp [h1]
        · exact List.mem_cons_of_mem _ h1
      · intro x hx
        rcases List.mem_cons.mp hx with h1 | h1
        · subst h1; exact hle
        · exact hall x h1

/-- C5: each Postgres recv claim returns the oldest (minimal `_created`)
row among the rows with `valid ≤ now`, status other than PROCESSING and no
concurrent row lock, with its status set to PROCESSING in the returned row
and in the table; and it returns no row exactly when no row qualifies. -/
theorem postgres_claim_oldest_eligible_unlocked (now : Int)
    (locked : List String) (rows : List PgRow) :
    (∀ r rows2, pg_get_raw now locked (some rows) = (some r, some rows2) →
        ∃ r0, r0 ∈ rows ∧ pg_eligible now r0 = true
          ∧ locked.contains r0._id = false
          ∧ r = { r0 with status := statusProcessing }
          ∧ rows2 = pg_set_processing r0._id rows
          ∧ ∀ x ∈ rows, pg_eligible now x = true →
              locked.contains x._id = false → r0._created ≤ x._created)
  ∧ ((pg_get_raw now locked (some rows)).1 = none ↔
      ∀ x ∈ rows, ¬(pg_eligible now x = true ∧ locked.contains x._id = false)) := by
  constructor
  · intro r rows2 h
    cases hsel : pg_claim_select now locked rows with
    | none => simp [pg_get_raw, hsel] at h
    | some r0 =>
        simp only [pg_get_raw, hsel, Prod.mk.injEq, Option.some.injEq] at h
        obtain ⟨hr, hrows2⟩ := h
        have hfold := hsel
        unfold pg_claim_select at hfold
        obtain ⟨hmem, hmin⟩ := pg_fold_min _ r0 hfold
        rw [List.mem_filter] at hmem
        obtain ⟨hmem, hp⟩ := hmem
        rw [Bool.and_eq_true, Bool.not_eq_true'] at hp
        refine ⟨r0, hmem, hp.1, ?_, hr.symm, hrows2.symm, ?_⟩
        · simpa using hp.2
        · intro x hx hex hlx
          exact hmin x (List.mem_filter.mpr ⟨hx, by
            rw [Bool.and_eq_true, Bool.not_eq_true']
            exact ⟨hex, by simpa using hlx⟩⟩)
  · cases hsel : pg_claim_select now locked rows with
    | none =>
        have hfil := hsel
        unfold pg_claim_select at hfil
        rw [pg_fold_none_iff] at hfil
        simp only [pg_get_raw, hsel]
        constructor
        · intro _ x hx hcontra
          have hxmem : x ∈ rows.filter
              (fun r => pg_eligible now r && !(locked.contains r._id)) :=
            List.mem_filter.mpr ⟨hx, by
              rw [Bool.and_eq_true, Bool.not_eq_true']
              exact ⟨hcontra.1, by simpa using hcontra.2⟩⟩
          rw [hfil] at hxmem
          simp at hxmem
        · intro _
          trivial
    | some r0 =>
        have hfold := hsel
        unfold pg_claim_select at hfold
        obtain ⟨hmem, _⟩ := pg_fold_min _ r0 hfold
        rw [List.mem_filter] at hmem
        obtain ⟨hmem, hp⟩ := hmem
        rw [Bool.and_eq_true, Bool.not_eq_true'] at hp
        simp only [pg_get_raw, hsel]
        constructor
        · intro habs
          simp at habs
        · intro hall
          exact absurd ⟨hp.1, by simpa using hp.2⟩ (hall r0 hmem)

/-- A demo queue row with id "a", created later than `pg_row_b`. -/
def pg_row_a : PgRow :=
  { _id := "a", body := .pickled (.pdict .nil), status := "new", count := 1,
    valid := 0, _created := 10, _updated := 0 }

/-- A demo queue row with id "b", the oldest eligible row. -/
def pg_row_b : PgRow :=
  { _id := "b", body := .pickled (.pdict .nil), status := "new", count := 1,
    valid := 0, _created := 5, _updated := 0 }

/-- Witness for C5 at a concrete two-row table: the claim at time 100 with
no concurrent locks picks the older row "b" and marks it PROCESSING. -/
theorem postgres_claim_oldest_eligible_unlocked_witness :
    ∃ r0, r0 ∈ [pg_row_a, pg_row_b] ∧ pg_eligible 100 r0 = true
      ∧ ([] : List String).contains r0._id = false
      ∧ { pg_row_b with status := statusProcessing }
          = { r0 with status := statusProcessing }
      ∧ pg_set_processing "b" [pg_row_a, pg_row_b]
          = pg_set_processing r0._id [pg_row_a, pg_row_b]
      ∧ ∀ x ∈ [pg_row_a, pg_row_b], pg_eligible 100 x = true →
          ([] : List String).contains x._id = false →
            r0._created ≤ x._created :=
  (postgres_claim_oldest_eligible_unlocked 100 [] [pg_row_a, pg_row_b]).1
    { pg_row_b with status := statusProcessing }
    (pg_set_processing "b" [pg_row_a, pg_row_b]) (by decide)

/-- The row inserted by `Postgres._send` (postgres.py 190-212):
`valid = now`, bumped by `delay_seconds` when that is truthy; status NEW;
`count` takes the column default 1. -/
def pg_new_row (now delay : Int) (body : Body) (newId : String) : PgRow :=
  { _id := newId, body := body, status := statusNew, count := 1,
    valid := now + (if delay ≠ 0 then delay else 0),
    _created := now, _updated := now }

/-- The INSERT attempted by `Postgres._send` (postgres.py 214-225): fails
with UndefinedTable when the queue table does not exist (a `none` state). -/
def pg_try_send (now delay : Int) (body : Body) (newId : String) :
    Option (List PgRow) → Except PyExn (List PgRow × String)
  | none => .error .undefinedTable
  | some rows => .ok (rows ++ [pg_new_row now delay body newId], newId)

/-- `Postgres._create_table` (postgres.py 148-188): `CREATE TABLE IF NOT
EXISTS` plus `CREATE INDEX IF NOT EXISTS` — a missing table becomes a fresh
empty one, an existing table is left alone. -/
def pg_create_table : Option (List PgRow) → List PgRow
  | none => []
  | some rows => rows

/-- `Postgres._send` (postgres.py 190-229): try the INSERT; on
UndefinedTable, create the table and retry (postgres.py 227-229) — the
retry runs against the freshly created table, where the INSERT succeeds. -/
def pg_send (now delay : Int) (body : Body) (newId : String)
    (st : Option (List PgRow)) : List PgRow × String :=
  match pg_try_send now delay body newId st with
  | .ok res => res
  | .error _ =>
      (pg_create_table st ++ [pg_new_row now delay body newId], newId)

/-- `Postgres._release` (postgres.py 348-389): set status RELEASED and
increment the `count` column of the row with the message id; when
`delay_seconds` is truthy additionally set `valid = now + delay`. -/
def pg_release_row (nowU delay : Int) (msgId : String)
    (rows : List PgRow) : List PgRow :=
  if delay ≠ 0 then
    rows.map (fun r =>
      if r._id = msgId then
        { r with status := statusReleased, count := r.count + 1,
                 valid := nowU + delay, _updated := nowU }
      else r)
  else
    rows.map (fun r =>
      if r._id = msgId then
        { r with status := statusReleased, count := r.count + 1,
                 _updated := nowU }
      else r)

/-- C7: a missing queue table makes `Postgres._send` create the table (and
index) and retry so the send succeeds — the resulting table exists and
holds exactly the inserted row — while `Postgres._get_raw` on a missing
table swallows the UndefinedTable and produces no row, so recv yields
null. -/
theorem postgres_missing_table_semantics (now delay : Int) (body : Body)
    (newId : String) (locked : List String) :
    pg_send now delay body newId none
      = ([pg_new_row now delay body newId], newId)
  ∧ pg_try_send now delay body newId none = .error .undefinedTable
  ∧ pg_create_table none = ([] : List PgRow)
  ∧ pg_get_raw now locked none = (none, none) :=
  ⟨rfl, rfl, rfl, rfl⟩

/-- Extract an int from an optional Python value. -/
def pyIntOf : Option PyVal → Option Int
  | some (.pint n) => some n
  | _ => none

/-- An end-to-end redelivery on the Postgres engine, exactly as the code
dispatches it: `Interface.recv` (base.py 330) calls the attribute named
`_recv_to_fields`, which `class Postgres` does not define (its override is
named `recv_to_fields`, postgres.py 239), so the base implementation runs
on every delivery.  Scenario: send `demo_fields` into a fresh queue at time
0; claim it at time 1; release it through `Interface.release` with no
explicit delay (computed backoff); claim it again at time 1000.  Returns
(`_count` seen by the first recv, `_count` seen by the second recv, the
table's `count` column after the release). -/
def pg_redelivery_demo : Option (Int × Int × Int) := do
  let body ← (fields_to_body demo_conn (.pdict demo_fields)).toOption
  let (t1, _) := pg_send 0 0 body "id0" none
  let (raw1, st1) := pg_get_raw 1 [] (some t1)
  let r1 ← raw1
  let f1 ← (recv_to_fields_base demo_conn r1._id r1.body (.pobj "pgrow")).toOption
  let count1 ← pyIntOf (f1.get "_count")
  let t2 ← st1
  let t3 := pg_release_row 2 (releaseDelay demo_conn 0 count1) r1._id t2
  let (raw2, _) := pg_get_raw 1000 [] (some t3)
  let r2 ← raw2
  let f2 ← (recv_to_fields_base demo_conn r2._id r2.body (.pobj "pgrow")).toOption
  let count2 ← pyIntOf (f2.get "_count")
  return (count1, count2, r2.count)

/-- C2 (bug): after a release and redelivery on the Postgres engine the
`_count` returned by recv is 1 again, not strictly greater than before the
release — the base `_recv_to_fields` recomputes `_count` from the decoded
body, which never carries a delivery count, and the Postgres override that
would copy the row's `count` column (already 2 after the release) into the
fields is named `recv_to_fields`, an attribute `Interface.recv` never
calls; that override would itself fail, since `super().recv_to_fields`
resolves against `Interface`, which defines no such attribute. -/
theorem postgres_redelivery_count_resets :
    pg_redelivery_demo = some (1, 1, 2)
  ∧ postgres_class_attrs.contains "_recv_to_fields" = false
  ∧ postgres_class_attrs.contains "recv_to_fields" = true
  ∧ interface_class_attrs.contains "recv_to_fields" = false
  ∧ interface_class_attrs.contains "_recv_to_fields" = true := by
  refine ⟨?_, by decide, by decide, by decide, by decide⟩
  decide

/-- A message file in a Dropfile queue directory (dropfile.py 36-46): the
filename encodes `(nanosecond timestamp)-(message id)-(count).txt`, the
contents are the encoded body (`none` models a truncated, zero-byte file)
and `locked` models a held advisory exclusive lock. -/
structure DFile where
  timestamp : Nat
  msgId : String
  count : Nat
  contents : Option Body
  locked : Bool
  deriving DecidableEq, Repr

/-- Whether two `DFile`s denote the same path, i.e. the same filename. -/
def DFile.samePath (a b : DFile) : Bool :=
  a.timestamp == b.timestamp && a.msgId == b.msgId && a.count == b.count

/-- `Dropfile._cleanup` (dropfile.py 136-148): truncate the file when the
`truncate` flag is set, release the lock, and delete the file when the
`delete` flag is set. -/
def dropfile_cleanup (dir : List DFile) (target : DFile)
    (truncate delete : Bool) : List DFile :=
  let dir1 :=
    if truncate then
      dir.map (fun g =>
        if g.samePath target then { g with contents := none } else g)
    else dir
  let dir2 := dir1.map (fun g =>
    if g.samePath target then { g with locked := false } else g)
  if delete then dir2.filter (fun g => !(g.samePath target)) else dir2

theorem samePath_eq (a target : DFile) :
    a.samePath target = (a.timestamp == target.timestamp
      && a.msgId == target.msgId && a.count == target.count) := rfl

theorem samePath_mk (t : Nat) (m : String) (cnt : Nat) (c : Option Body)
    (lk : Bool) (target : DFile) :
    DFile.samePath
        ({ timestamp := t, msgId := m, count := cnt,
           contents := c, locked := lk } : DFile) target
      = (t == target.timestamp && m == target.msgId
          && cnt == target.count) := rfl

theorem filter_map_invariant {α : Type} (p : α → Bool) (f : α → α)
    (hkeep : ∀ a, p a = true → f a = a)
    (hpres : ∀ a, p (f a) = p a) (l : List α) :
    (l.map f).filter p = l.filter p := by
  induction l with
  | nil => rfl
  | cons hd tl ih =>
      simp only [List.map_cons, List.filter_cons, hpres]
      by_cases h : p hd = true
      · rw [if_pos h, if_pos h, hkeep hd h, ih]
      · rw [if_neg h, if_neg h]
        exact ih

theorem dropfile_cleanup_full (dir : List DFile) (target : DFile) :
    dropfile_cleanup dir target true true
      = dir.filter (fun g => !(g.samePath target)) := by
  have hdef : dropfile_cleanup dir target true true
      = ((dir.map (fun g =>
            if g.samePath target then { g with contents := none } else g)).map
          (fun g =>
            if g.samePath target then { g with locked := false } else g)).filter
          (fun g => !(g.samePath target)) := rfl
  rw [hdef, List.map_map]
  apply filter_map_invariant
  · intro a ha
    have hfa : (a.timestamp == target.timestamp && a.msgId == target.msgId
        && a.count == target.count) = false := by
      cases hb : (a.timestamp == target.timestamp && a.msgId == target.msgId
          && a.count == target.count)
      · rfl
      · exfalso
        rw [samePath_eq, hb] at ha
        simp at ha
    simp [Function.comp, samePath_eq, samePath_mk, hfa]
  · intro a
    by_cases hsp : (a.timestamp == target.timestamp && a.msgId == target.msgId
        && a.count == target.count) = true
    · simp [Function.comp, samePath_eq, samePath_mk, hsp]
    · simp [Function.comp, samePath_eq, samePath_mk, hsp]

theorem dropfile_cleanup_unlock_only (dir : List DFile) (target : DFile) :
    dropfile_cleanup dir target false false
      = dir.map (fun g =>
          if g.samePath target then { g with locked := false } else g) := rfl

/-- `Dropfile._release` (dropfile.py 105-126): with a truthy delay, write a
new file named `(now_ns + delay * 1e9)-(id)-(count + 1).txt` holding the
original body (`fields["_body"]`), then truncate, unlock and delete the
original under its lock; with delay 0 only release the lock (no truncate,
no delete).  `raw` is the claimed original file (`fields["_raw"]`). -/
def dropfile_release (now_ns : Nat) (delay_seconds : Nat) (fid : String)
    (fcount : Nat) (fbody : Body) (raw : DFile) (dir : List DFile) :
    List DFile :=
  if delay_seconds ≠ 0 then
    let dest : DFile :=
      { timestamp := now_ns + delay_seconds * 1000000000, msgId := fid,
        count := fcount + 1, contents := some fbody, locked := false }
    dropfile_cleanup (dir ++ [dest]) raw true true
  else
    dropfile_cleanup dir raw false false

/-- C8: on the dropfile engine, release with delay d > 0 leaves the
directory with the original file gone and one new unlocked file whose name
encodes timestamp `now + d` (in nanoseconds), the same message id and the
prior count + 1, holding the original body; release with delay 0 only
unlocks the original file, leaving every name, count and content unchanged
(so it reappears to later claims with the same timestamp). -/
theorem dropfile_release_spec (now_ns d : Nat) (fid : String) (fcount : Nat)
    (fbody : Body) (raw : DFile) (dir : List DFile)
    (hd : 0 < d) (hts : raw.timestamp ≠ now_ns + d * 1000000000) :
    dropfile_release now_ns d fid fcount fbody raw dir
      = dir.filter (fun g => !(g.samePath raw))
        ++ [{ timestamp := now_ns + d * 1000000000, msgId := fid,
              count := fcount + 1, contents := some fbody, locked := false }]
  ∧ dropfile_release now_ns 0 fid fcount fbody raw dir
      = dir.map (fun g =>
          if g.samePath raw then { g with locked := false } else g) := by
  constructor
  · unfold dropfile_release
    rw [if_pos (by omega : d ≠ 0)]
    rw [dropfile_cleanup_full, List.filter_append]
    congr 1
    have hsp : DFile.samePath
        { timestamp := now_ns + d * 1000000000, msgId := fid,
          count := fcount + 1, contents := some fbody, locked := false }
        raw = false := by
      simp only [DFile.samePath, Bool.and_eq_false_iff, beq_eq_false_iff_ne,
        ne_eq]
      left
      left
      intro hcontra
      exact hts hcontra.symm
    simp [hsp]
  · unfold dropfile_release
    rw [if_neg (by simp : ¬ (0 : Nat) ≠ 0)]
    exact dropfile_cleanup_unlock_only dir raw

/-- A claimed demo message file. -/
def dfile_demo : DFile :=
  { timestamp := 50, msgId := "m1", count := 1,
    contents := some (.pickled (.pdict .nil)), locked := true }

/-- Witness for C8 at a concrete file and directory, for both the d = 2 and
the d = 0 branches. -/
theorem dropfile_release_spec_witness :
    dropfile_release 100 2 "m1" 1 (.pickled (.pdict .nil)) dfile_demo
        [dfile_demo]
      = [dfile_demo].filter (fun g => !(g.samePath dfile_demo))
        ++ [{ timestamp := 100 + 2 * 1000000000, msgId := "m1", count := 2,
              contents := some (.pickled (.pdict .nil)), locked := false }]
  ∧ dropfile_release 100 0 "m1" 1 (.pickled (.pdict .nil)) dfile_demo
        [dfile_demo]
      = [dfile_demo].map (fun g =>
          if g.samePath dfile_demo then { g with locked := false } else g) :=
  dropfile_release_spec 100 2 "m1" 1 (.pickled (.pdict .nil)) dfile_demo
    [dfile_demo] (by decide) (by decide)

/-- The outcome of running a message handler: a normal return value, or one
of the control-flow exceptions `ReleaseMessage` / `AckMessage`
(exception.py 18-34), or any other exception. -/
inductive HandlerResult where
  | ret (v : PyVal)
  | raiseReleaseMessage (delay_seconds : Int)
  | raiseAckMessage
  | raiseOther (e : PyExn)
  deriving DecidableEq, Repr

/-- The queue operation `Message.recv_for` performs on the received message:
`Interface.ack` or `Interface.release` with the given `delay_seconds`
argument (an argument of 0 triggers the computed backoff inside
`Interface.release`). -/
inductive QueueAction where
  | ackAction
  | releaseAction (delay_arg : Int)
  deriving DecidableEq, Repr

/-- `Message.process` (message.py 221-227): the body run inside
`cls.recv(...)` awaits the handler and raises `ReleaseMessage()` — whose
`delay_seconds` defaults to 0 (exception.py 25-27) — when the handler
returned the value False (`r is False`); any exception the handler raised
propagates unchanged into the recv context. -/
def process_handle_outcome : HandlerResult → HandlerResult
  | .ret v => if v = .pbool false then .raiseReleaseMessage 0 else .ret v
  | o => o

/-- The except/else ladder of `Message.recv_for` (message.py 284-308)
around the yielded message: ReleaseMessage releases with the exception's
delay and is swallowed; AckMessage acks and is swallowed; any other
exception releases (or acks when the `ack_on_recv` option is set) and is
re-raised; a body that raises nothing acks. -/
def recv_for_dispatch (ack_on_recv : Bool) :
    HandlerResult → QueueAction × Option PyExn
  | .ret _ => (.ackAction, none)
  | .raiseReleaseMessage d => (.releaseAction d, none)
  | .raiseAckMessage => (.ackAction, none)
  | .raiseOther e =>
      ((if ack_on_recv then .ackAction else .releaseAction 0), some e)

/-- One received message processed through `Message.process` /
`Message.recv_for`. -/
def message_process_step (ack_on_recv : Bool) (r : HandlerResult) :
    QueueAction × Option PyExn :=
  recv_for_dispatch ack_on_recv (process_handle_outcome r)

/-- C6: handler raises ReleaseMessage(d) — release with delay d, nothing
propagated; raises AckMessage — ack, nothing propagated; raises any other
exception — release (or ack under `ack_on_recv`) and the exception is
re-raised; returns anything other than False — ack; returns False —
release with delay argument 0, on which `Interface.release` computes the
backoff for a message with nonzero count. -/
theorem handler_outcome_dispatch (ack_on_recv : Bool) (v : PyVal) (d : Int)
    (e : PyExn) (cnt : Int) (uo : UserOptions) :
    message_process_step ack_on_recv (.raiseReleaseMessage d)
      = (.releaseAction d, none)
  ∧ message_process_step ack_on_recv .raiseAckMessage = (.ackAction, none)
  ∧ message_process_step ack_on_recv (.raiseOther e)
      = ((if ack_on_recv then .ackAction else .releaseAction 0), some e)
  ∧ (v ≠ .pbool false →
      message_process_step ack_on_recv (.ret v) = (.ackAction, none))
  ∧ message_process_step ack_on_recv (.ret (.pbool false))
      = (.releaseAction 0, none)
  ∧ (0 < cnt → releaseDelay (Connection.ofOptions uo) 0 cnt
      = min (uo.max_timeout.getD 3600)
          ((cnt * uo.backoff_multiplier.getD 5) * (uo.backoff_amplifier.getD cnt))) := by
  refine ⟨rfl, rfl, rfl, ?_, rfl, ?_⟩
  · intro hv
    simp [message_process_step, process_handle_outcome, hv, recv_for_dispatch]
  · exact releaseDelay_zero_pos uo cnt

/-- Witness for C6 at concrete inputs: a handler returning 1 gets acked,
and the release following a False return computes the default backoff for
count 1. -/
theorem handler_outcome_dispatch_witness :
    message_process_step false (.ret (.pint 1)) = (.ackAction, none)
  ∧ releaseDelay (Connection.ofOptions {}) 0 1
      = min ((3600 : Int)) ((1 * 5) * 1) :=
  ⟨(handler_outcome_dispatch false (.pint 1) 0 .ackMessage 1 {}).2.2.2.1
      (by decide),
   (handler_outcome_dispatch false (.pint 1) 0 .ackMessage 1 {}).2.2.2.2.2
      (by decide)⟩

end Morp
